import Mathlib

/-!
Formal embedding of the SMHI data-quality monitor's validation and scoring
pipeline (modules `src/quality/scorer.py`, `src/validation/completeness.py`,
`src/validation/anomaly_detector.py`, `src/validation/range_validator.py`,
`src/api/base_client.py`, constants from `src/utils/config.py`).

Modelling conventions:
* Python floats are modelled as rationals (`ℚ`); the values used by the
  pipeline's tests and constants are all exactly representable.
* `datetime` values and `timedelta` durations are modelled as rationals
  (a timestamp is a number of hours; subtraction of timestamps gives a
  duration, and division of a duration by a duration gives a rational,
  exactly as Python's `timedelta.__truediv__`).
* `float("inf")` (used only as a never-triggering threshold) is modelled
  by `Option ℚ` with `none` standing for infinity.
* Python `round(x, 1)` and the `{:.0f}`/`{:.1f}` format specifiers round
  half to even on the exact decimal value.
-/

/-- Python `round(x, 1)`: round to one decimal place, ties to even. -/
def round1 (q : ℚ) : ℚ :=
  let x : ℚ := 10 * q
  let f : ℤ := ⌊x⌋
  let r : ℚ := x - f
  (if 1/2 < r then ((f + 1 : ℤ) : ℚ)
   else if r < 1/2 then (f : ℚ)
   else if f % 2 = 0 then (f : ℚ)
   else ((f + 1 : ℤ) : ℚ)) / 10

/-- Python `int(x)` applied to a float/rational: truncation toward zero. -/
def pyInt (q : ℚ) : ℤ := if 0 ≤ q then ⌊q⌋ else ⌈q⌉

/-- Round a rational to the nearest integer, ties to even (the rounding used
by Python's `round` and by the `{:.Nf}` format specifiers). -/
def pyRound0 (q : ℚ) : ℤ :=
  let f : ℤ := ⌊q⌋
  let r : ℚ := q - f
  if 1/2 < r then f + 1
  else if r < 1/2 then f
  else if f % 2 = 0 then f
  else f + 1

/-- Python format `{q:.0f}`. -/
def fmt0 (q : ℚ) : String := toString (pyRound0 q)

/-- Python format `{q:.1f}`. -/
def fmt1 (q : ℚ) : String :=
  let n : ℤ := pyRound0 (10 * q)
  (if n < 0 then "-" else "") ++
    toString (n.natAbs / 10) ++ "." ++ toString (n.natAbs % 10)

/-! ## `src/utils/config.py` and `src/quality/scorer.py` -/

/-- The `QUALITY_WEIGHTS` dict of `config.py`, which always carries exactly
the four keys accessed by the scorer, modelled as a record. -/
structure QualityWeights where
  schema_validity : ℚ
  completeness : ℚ
  range_validity : ℚ
  anomaly_rate : ℚ
  deriving DecidableEq

/-- Constant `QUALITY_WEIGHTS` from `config.py`. -/
def QUALITY_WEIGHTS : QualityWeights :=
  { schema_validity := 20/100
    completeness := 30/100
    range_validity := 25/100
    anomaly_rate := 25/100 }

/-- Embedding of `QualityComponents` dataclass from `scorer.py`. -/
structure QualityComponents where
  schema_validity : ℚ
  completeness : ℚ
  range_validity : ℚ
  anomaly_score : ℚ
  deriving DecidableEq

/-- Embedding of `QualityScore` dataclass from `scorer.py`. -/
structure QualityScore where
  overall : ℚ
  components : QualityComponents
  grade : String
  recommendation : String
  deriving DecidableEq

/-- Embedding of `_score_to_grade` from `scorer.py`. -/
def score_to_grade (score : ℚ) : String :=
  if 90 ≤ score then "A"
  else if 80 ≤ score then "B"
  else if 70 ≤ score then "C"
  else if 60 ≤ score then "D"
  else "F"

/-- Embedding of `_generate_recommendation` from `scorer.py` (the `overall` argument is
unused in the source as well). -/
def generate_recommendation (components : QualityComponents) (_overall : ℚ) :
    String :=
  let issues : List String :=
    (if components.schema_validity < 100 then
      ["API response schema validation failed - check API compatibility"]
     else []) ++
    (if components.completeness < 90 then
      ["Data completeness is low (" ++ fmt0 components.completeness ++
        "%) - investigate gaps"]
     else []) ++
    (if components.range_validity < 90 then
      ["Range validity concerns (" ++ fmt0 components.range_validity ++
        "%) - sensor calibration may be needed"]
     else []) ++
    (if components.anomaly_score < 90 then
      ["Elevated anomaly rate (" ++ fmt1 (100 - components.anomaly_score) ++
        "%) - review flagged values"]
     else [])
  if issues = [] then "Data quality is excellent - no action required"
  else String.intercalate "; " issues

/-- Embedding of `calculate_quality_score` from `scorer.py`.  `weights = None` selects the
default `QUALITY_WEIGHTS` (an empty dict would too, via Python truthiness;
a weights record always has its four fields, so `Option` suffices). -/
def calculate_quality_score (schema_valid : Bool)
    (completeness_percent range_validity_percent anomaly_rate_percent : ℚ)
    (weights : Option QualityWeights) : QualityScore :=
  let w := weights.getD QUALITY_WEIGHTS
  let components : QualityComponents :=
    { schema_validity := if schema_valid then 100 else 0
      completeness := min 100 (max 0 completeness_percent)
      range_validity := min 100 (max 0 range_validity_percent)
      anomaly_score := min 100 (max 0 (100 - anomaly_rate_percent)) }
  let overall :=
    components.schema_validity * w.schema_validity
      + components.completeness * w.completeness
      + components.range_validity * w.range_validity
      + components.anomaly_score * w.anomaly_rate
  { overall := round1 overall
    components := components
    grade := score_to_grade overall
    recommendation := generate_recommendation components overall }

/-- Embedding of `_generate_system_recommendation` from `scorer.py`.  The Python
`grade_counts` dict is built from the stations' grades; it is modelled here
by the list of grades itself (`total` = sum of all counts = length,
`poor_stations` = count of grade D plus count of grade F). -/
def generate_system_recommendation (grades : List String) (overall : ℚ) :
    String :=
  let total := grades.length
  let poor_stations := grades.count "D" + grades.count "F"
  if 90 ≤ overall then
    "System health excellent across " ++ toString total ++ " stations"
  else if 0 < poor_stations then
    toString poor_stations ++ " of " ++ toString total ++
      " stations have degraded data quality - investigate sensor issues"
  else if 70 ≤ overall then
    "System health acceptable - minor issues at some stations"
  else
    "System-wide data quality concerns - comprehensive review needed"

/-- Embedding of `aggregate_station_scores` from `scorer.py`. -/
def aggregate_station_scores (scores : List QualityScore) : QualityScore :=
  if scores = [] then
    { overall := 0
      components :=
        { schema_validity := 0, completeness := 0
          range_validity := 0, anomaly_score := 0 }
      grade := "F"
      recommendation := "No data available for quality assessment" }
  else
    let n : ℚ := scores.length
    let avg_schema := (scores.map (fun s => s.components.schema_validity)).sum / n
    let avg_completeness := (scores.map (fun s => s.components.completeness)).sum / n
    let avg_range := (scores.map (fun s => s.components.range_validity)).sum / n
    let avg_anomaly := (scores.map (fun s => s.components.anomaly_score)).sum / n
    let overall := (scores.map (fun s => s.overall)).sum / n
    { overall := round1 overall
      components :=
        { schema_validity := avg_schema, completeness := avg_completeness
          range_validity := avg_range, anomaly_score := avg_anomaly }
      grade := score_to_grade overall
      recommendation :=
        generate_system_recommendation (scores.map (fun s => s.grade)) overall }

/-! ## `src/validation/completeness.py` -/

/-- Constant `MIN_COMPLETENESS_PERCENT` from `config.py`. -/
def MIN_COMPLETENESS_PERCENT : ℚ := 90

/-- Embedding of `Gap` dataclass from `completeness.py` (timestamps and durations are
rationals counting hours; `end` is a Lean keyword, hence the guillemets). -/
structure Gap where
  start : ℚ
  «end» : ℚ
  duration : ℚ
  missing_count : ℤ
  deriving DecidableEq

/-- Embedding of `CompletenessResult` dataclass from `completeness.py`. -/
structure CompletenessResult where
  total_expected : ℤ
  total_present : ℕ
  completeness_percent : ℚ
  gaps : List Gap
  longest_gap : Option Gap
  passes_threshold : Bool
  deriving DecidableEq

/-- The gap-scanning loop of `analyze_completeness` (`for i in
range(len(sorted_ts) - 1)` appending a `Gap` whenever the delta exceeds the
threshold `expected_interval * 1.5`). -/
def findGaps (sorted_ts : List ℚ) (expected_interval : ℚ) : List Gap :=
  let gap_threshold := expected_interval * (3/2)
  (List.range (sorted_ts.length - 1)).filterMap (fun i =>
    let delta := sorted_ts.getD (i + 1) 0 - sorted_ts.getD i 0
    if gap_threshold < delta then
      some { start := sorted_ts.getD i 0
             «end» := sorted_ts.getD (i + 1) 0
             duration := delta
             missing_count := pyInt (delta / expected_interval) - 1 }
    else none)

/-- Python `max(gaps, key=lambda g: g.duration) if gaps else None`: first
gap of maximal duration. -/
def longestGap (gaps : List Gap) : Option Gap :=
  match gaps with
  | [] => none
  | g :: rest =>
    some (rest.foldl (fun acc h => if acc.duration < h.duration then h else acc) g)

/-- Embedding of `analyze_completeness` from `completeness.py`.  `datetime` values are
rationals; `start_time`/`end_time` default (`None`) to the first/last sorted
timestamp, as in the source (`datetime` objects are always truthy, so the
Python `or` is exactly `Option.getD`). -/
def analyze_completeness (timestamps : List ℚ) (expected_interval : ℚ)
    (start_time end_time : Option ℚ) (min_completeness : ℚ) :
    CompletenessResult :=
  if timestamps = [] then
    { total_expected := 0
      total_present := 0
      completeness_percent := 0
      gaps := []
      longest_gap := none
      passes_threshold := false }
  else
    let sorted_ts := timestamps.insertionSort (· ≤ ·)
    let s := start_time.getD (sorted_ts.getD 0 0)
    let e := end_time.getD (sorted_ts.getD (sorted_ts.length - 1) 0)
    let time_span := e - s
    let total_expected : ℤ := max 1 (pyInt (time_span / expected_interval) + 1)
    let total_present : ℕ := sorted_ts.length
    let gaps := findGaps sorted_ts expected_interval
    let completeness : ℚ :=
      if 0 < total_expected then
        min 100 ((total_present : ℚ) / (total_expected : ℚ) * 100)
      else 0
    { total_expected := total_expected
      total_present := total_present
      completeness_percent := completeness
      gaps := gaps
      longest_gap := longestGap gaps
      passes_threshold := decide (min_completeness ≤ completeness) }

/-- The gap rule exactly as the specification words it: scanning consecutive
sorted pairs, a gap is declared when the delta exceeds `1.5 ×
expected_interval`, with `missing_count = floor(delta / expected_interval) -
1`.  Stated over pairs of the sorted list (for comparison with `findGaps`). -/
def gapsSpecOfPairs (sorted_ts : List ℚ) (expected_interval : ℚ) : List Gap :=
  (sorted_ts.zip sorted_ts.tail).filterMap (fun p =>
    if (3/2) * expected_interval < p.2 - p.1 then
      some { start := p.1
             «end» := p.2
             duration := p.2 - p.1
             missing_count := ⌊(p.2 - p.1) / expected_interval⌋ - 1 }
    else none)

/-! ## `src/validation/range_validator.py` -/

/-- Embedding of `RangeSeverity` enum from `range_validator.py`. -/
inductive RangeSeverity where
  | OK
  | WARNING
  | CRITICAL
  deriving DecidableEq

/-- A registered entry of the `RANGE_THRESHOLDS` dict from `config.py`:
every registered parameter carries exactly these four keys. -/
structure RangeThresholds where
  min : ℚ
  max : ℚ
  warn_min : ℚ
  warn_max : ℚ
  deriving DecidableEq

/-- Lookup `RANGE_THRESHOLDS.get(parameter)` from `config.py`. -/
def RANGE_THRESHOLDS (parameter : String) : Option RangeThresholds :=
  if parameter = "temperature" then
    some { min := -60, max := 55, warn_min := -50, warn_max := 40 }
  else if parameter = "wind_speed" then
    some { min := 0, max := 80, warn_min := 0, warn_max := 35 }
  else if parameter = "precipitation" then
    some { min := 0, max := 300, warn_min := 0, warn_max := 100 }
  else if parameter = "humidity" then
    some { min := 0, max := 100, warn_min := 0, warn_max := 100 }
  else if parameter = "water_level" then
    some { min := -10, max := 20, warn_min := -5, warn_max := 15 }
  else none

/-- Embedding of `RangeCheckResult` dataclass from `range_validator.py`. -/
structure RangeCheckResult where
  value : ℚ
  parameter : String
  severity : RangeSeverity
  message : String
  threshold_violated : Option String
  deriving DecidableEq

/-- Embedding of `check_range` from `range_validator.py`.  A custom thresholds record
always carries the four fields, so the `.get(key, default)` fallbacks of the
source (`-inf`/`+inf`/`min`/`max`) never fire for the inputs modelled here;
`custom_thresholds or RANGE_THRESHOLDS.get(parameter)` is `Option.orElse`
(a non-empty dict is truthy). -/
def check_range (value : ℚ) (parameter : String)
    (custom_thresholds : Option RangeThresholds) : RangeCheckResult :=
  match custom_thresholds.orElse (fun _ => RANGE_THRESHOLDS parameter) with
  | none =>
    { value := value, parameter := parameter, severity := RangeSeverity.OK
      message := "No thresholds defined for " ++ parameter
      threshold_violated := none }
  | some thresholds =>
    let min_val := thresholds.min
    let max_val := thresholds.max
    let warn_min := thresholds.warn_min
    let warn_max := thresholds.warn_max
    if value < min_val then
      { value := value, parameter := parameter
        severity := RangeSeverity.CRITICAL
        message := parameter ++ " value " ++ toString value ++
          " is below minimum " ++ toString min_val
        threshold_violated := some "min" }
    else if max_val < value then
      { value := value, parameter := parameter
        severity := RangeSeverity.CRITICAL
        message := parameter ++ " value " ++ toString value ++
          " is above maximum " ++ toString max_val
        threshold_violated := some "max" }
    else if value < warn_min then
      { value := value, parameter := parameter
        severity := RangeSeverity.WARNING
        message := parameter ++ " value " ++ toString value ++
          " is unusually low (below " ++ toString warn_min ++ ")"
        threshold_violated := some "warn_min" }
    else if warn_max < value then
      { value := value, parameter := parameter
        severity := RangeSeverity.WARNING
        message := parameter ++ " value " ++ toString value ++
          " is unusually high (above " ++ toString warn_max ++ ")"
        threshold_violated := some "warn_max" }
    else
      { value := value, parameter := parameter, severity := RangeSeverity.OK
        message := parameter ++ " value " ++ toString value ++
          " is within normal range"
        threshold_violated := none }

/-- Embedding of `validate_observations` from `range_validator.py` (per-value results;
the summary-count dict is recoverable from the results and unused by the
claims' scoring path). -/
def validate_observations (values : List ℚ) (parameter : String) :
    List RangeCheckResult :=
  values.map (fun v => check_range v parameter none)

/-- The severity weight table of `calculate_range_validity_score`. -/
def rangeSeverityWeight : RangeSeverity → ℚ
  | RangeSeverity.OK => 1
  | RangeSeverity.WARNING => 1/2
  | RangeSeverity.CRITICAL => 0

/-- Embedding of `calculate_range_validity_score` from `range_validator.py`. -/
def calculate_range_validity_score (results : List RangeCheckResult) : ℚ :=
  if results = [] then 100
  else
    let total_score := (results.map (fun r => rangeSeverityWeight r.severity)).sum
    total_score / (results.length : ℚ) * 100

/-! ## `src/validation/anomaly_detector.py` -/

/-- Constant `ZSCORE_THRESHOLD` from `config.py`. -/
def ZSCORE_THRESHOLD : ℚ := 3

/-- Constant `IQR_MULTIPLIER` from `config.py`. -/
def IQR_MULTIPLIER : ℚ := 3/2

/-- Lookup `RATE_OF_CHANGE_THRESHOLD.get(parameter)` from `config.py`. -/
def RATE_OF_CHANGE_THRESHOLD (parameter : String) : Option ℚ :=
  if parameter = "temperature" then some 10
  else if parameter = "wind_speed" then some 20
  else if parameter = "humidity" then some 30
  else none

/-- Embedding of `AnomalyMethod` enum from `anomaly_detector.py`. -/
inductive AnomalyMethod where
  | ZSCORE
  | IQR
  | RATE_OF_CHANGE
  deriving DecidableEq

/-- Embedding of `AnomalySeverity` enum from `anomaly_detector.py`. -/
inductive AnomalySeverity where
  | LOW
  | MEDIUM
  | HIGH
  deriving DecidableEq

/-- Embedding of `Anomaly` dataclass from `anomaly_detector.py`.  For the z-score
detector the `deviation` field stores the *square* of the z-score (the
square root of a rational is not rational; flags and severities are decided
by comparing against squared thresholds, which yields exactly the same
anomaly set and severities as the source for its non-negative thresholds,
and no claim refers to the z-score deviation value itself).  Messages
reproduce the source's f-strings, with the formatted z-score elided for the
same reason. -/
structure Anomaly where
  timestamp : ℚ
  value : ℚ
  method : AnomalyMethod
  severity : AnomalySeverity
  message : String
  deviation : ℚ
  deriving DecidableEq

/-- Mean of a list (`np.mean`). -/
def listMean (l : List ℚ) : ℚ := l.sum / (l.length : ℚ)

/-- Population variance of a list, i.e. the square of `np.std` (ddof = 0). -/
def popVar (l : List ℚ) : ℚ :=
  ((l.map (fun x => (x - listMean l) ^ 2)).sum) / (l.length : ℚ)

/-- Embedding of `_zscore_to_severity` from `anomaly_detector.py`, phrased on the squared
z-score: `z > 5 ↔ z² > 25` and `z > 4 ↔ z² > 16` for the non-negative `z`. -/
def zscore_to_severity_sq (zsq : ℚ) : AnomalySeverity :=
  if 25 < zsq then AnomalySeverity.HIGH
  else if 16 < zsq then AnomalySeverity.MEDIUM
  else AnomalySeverity.LOW

/-- One tested point of the z-score detector: the source tests
`|x - mean|/std > threshold` under `std > 0`; equivalently (threshold ≥ 0)
`(x - mean)² > threshold² · var`, and always flags when `threshold < 0`. -/
def zscoreHit (x mean var threshold : ℚ) : Bool :=
  threshold < 0 ∨ threshold ^ 2 * var < (x - mean) ^ 2

/-- Embedding of `detect_zscore_anomalies` from `anomaly_detector.py` (both the global
branch and the rolling-window branch; Python's `if window_size and
window_size < len(arr)` treats `None` and `0` alike). -/
def detect_zscore_anomalies (values timestamps : List ℚ) (threshold : ℚ)
    (window_size : Option ℕ) : List Anomaly :=
  if values.length < 3 then []
  else
    let rolling : ℕ → List Anomaly := fun w =>
      (List.range (values.length - w)).filterMap (fun k =>
        let i := w + k
        let window := (values.drop (i - w)).take w
        let mean := listMean window
        let var := popVar window
        let x := values.getD i 0
        if 0 < var then
          if zscoreHit x mean var threshold then
            some { timestamp := timestamps.getD i 0
                   value := x
                   method := AnomalyMethod.ZSCORE
                   severity := zscore_to_severity_sq ((x - mean) ^ 2 / var)
                   message := "Value " ++ toString x ++
                     " is beyond the z-score threshold of the rolling mean"
                   deviation := (x - mean) ^ 2 / var }
          else none
        else none)
    let globalScan : List Anomaly :=
      let mean := listMean values
      let var := popVar values
      if 0 < var then
        (List.range values.length).filterMap (fun i =>
          let x := values.getD i 0
          if zscoreHit x mean var threshold then
            some { timestamp := timestamps.getD i 0
                   value := x
                   method := AnomalyMethod.ZSCORE
                   severity := zscore_to_severity_sq ((x - mean) ^ 2 / var)
                   message := "Value " ++ toString x ++
                     " is beyond the z-score threshold of the mean"
                   deviation := (x - mean) ^ 2 / var }
          else none)
      else []
    match window_size with
    | some w => if w ≠ 0 ∧ w < values.length then rolling w else globalScan
    | none => globalScan

/-- Python format `{q:.2f}`. -/
def fmt2 (q : ℚ) : String :=
  let n : ℤ := pyRound0 (100 * q)
  (if n < 0 then "-" else "") ++ toString (n.natAbs / 100) ++ "." ++
    (if n.natAbs % 100 < 10 then "0" else "") ++ toString (n.natAbs % 100)

/-- Embedding of `np.percentile(arr, p)` with the default linear interpolation: position
`(n-1)·p/100` into the sorted data, interpolating between the neighbouring
order statistics. -/
def npPercentile (l : List ℚ) (p : ℚ) : ℚ :=
  let s := l.insertionSort (· ≤ ·)
  let pos : ℚ := ((s.length - 1 : ℤ) : ℚ) * p / 100
  let i : ℤ := ⌊pos⌋
  let frac : ℚ := pos - (i : ℚ)
  let lo := s.getD i.toNat 0
  let hi := s.getD (i.toNat + 1) lo
  lo + frac * (hi - lo)

/-- Embedding of `_iqr_deviation_to_severity` from `anomaly_detector.py`. -/
def iqr_deviation_to_severity (deviation : ℚ) : AnomalySeverity :=
  if 3 < deviation then AnomalySeverity.HIGH
  else if 2 < deviation then AnomalySeverity.MEDIUM
  else AnomalySeverity.LOW

/-- Embedding of `detect_iqr_anomalies` from `anomaly_detector.py`. -/
def detect_iqr_anomalies (values timestamps : List ℚ) (multiplier : ℚ) :
    List Anomaly :=
  if values.length < 4 then []
  else
    let q1 := npPercentile values 25
    let q3 := npPercentile values 75
    let iqr := q3 - q1
    let lower_bound := q1 - multiplier * iqr
    let upper_bound := q3 + multiplier * iqr
    (List.range values.length).filterMap (fun i =>
      let val := values.getD i 0
      if val < lower_bound then
        let deviation := if 0 < iqr then (q1 - val) / iqr else 0
        some { timestamp := timestamps.getD i 0
               value := val
               method := AnomalyMethod.IQR
               severity := iqr_deviation_to_severity deviation
               message := "Value " ++ toString val ++
                 " is below IQR lower bound " ++ fmt2 lower_bound
               deviation := deviation }
      else if upper_bound < val then
        let deviation := if 0 < iqr then (val - q3) / iqr else 0
        some { timestamp := timestamps.getD i 0
               value := val
               method := AnomalyMethod.IQR
               severity := iqr_deviation_to_severity deviation
               message := "Value " ++ toString val ++
                 " is above IQR upper bound " ++ fmt2 upper_bound
               deviation := deviation }
      else none)

/-- Embedding of `_rate_change_to_severity` from `anomaly_detector.py`. -/
def rate_change_to_severity (change threshold : ℚ) : AnomalySeverity :=
  let r := change / threshold
  if 3 < r then AnomalySeverity.HIGH
  else if 2 < r then AnomalySeverity.MEDIUM
  else AnomalySeverity.LOW

/-- Embedding of `detect_rate_of_change_anomalies` from `anomaly_detector.py`.  The
source computes `threshold = custom_threshold or
RATE_OF_CHANGE_THRESHOLD.get(parameter, float("inf"))`: `None` *and* `0.0`
are falsy, so both fall through to the per-parameter lookup; the `inf`
fallback for an unknown parameter is modelled by `none` (a comparison
`change > inf` is never true, and deviation/severity are only computed for
flagged points, where the threshold is finite). -/
def detect_rate_of_change_anomalies (values timestamps : List ℚ)
    (parameter : String) (custom_threshold : Option ℚ) : List Anomaly :=
  if values.length < 2 then []
  else
    let threshold : Option ℚ :=
      match custom_threshold with
      | some c => if c = 0 then RATE_OF_CHANGE_THRESHOLD parameter else some c
      | none => RATE_OF_CHANGE_THRESHOLD parameter
    (List.range (values.length - 1)).filterMap (fun k =>
      let i := k + 1
      let change := |values.getD i 0 - values.getD (i - 1) 0|
      match threshold with
      | none => none
      | some t =>
        if t < change then
          some { timestamp := timestamps.getD i 0
                 value := values.getD i 0
                 method := AnomalyMethod.RATE_OF_CHANGE
                 severity := rate_change_to_severity change t
                 message := "Rapid change of " ++ fmt2 change ++
                   " from previous value " ++ toString (values.getD (i - 1) 0)
                 deviation := change / t }
        else none)

/-- Embedding of `detect_all_anomalies` from `anomaly_detector.py`: run the selected
methods (`None` selects all three, in declaration order), concatenate, and
sort the combined list by timestamp. -/
def detect_all_anomalies (values timestamps : List ℚ) (parameter : String)
    (methods : Option (List AnomalyMethod)) : List Anomaly :=
  let ms := methods.getD
    [AnomalyMethod.ZSCORE, AnomalyMethod.IQR, AnomalyMethod.RATE_OF_CHANGE]
  let all_anomalies :=
    (if AnomalyMethod.ZSCORE ∈ ms then
      detect_zscore_anomalies values timestamps ZSCORE_THRESHOLD none
     else []) ++
    (if AnomalyMethod.IQR ∈ ms then
      detect_iqr_anomalies values timestamps IQR_MULTIPLIER
     else []) ++
    (if AnomalyMethod.RATE_OF_CHANGE ∈ ms then
      detect_rate_of_change_anomalies values timestamps parameter none
     else [])
  all_anomalies.insertionSort (fun a b => a.timestamp ≤ b.timestamp)

/-- Embedding of `calculate_anomaly_rate` from `anomaly_detector.py`. -/
def calculate_anomaly_rate (anomalies : List Anomaly)
    (total_observations : ℕ) : ℚ :=
  if total_observations = 0 then 0
  else ((anomalies.length : ℚ) / (total_observations : ℚ)) * 100

/-- Embedding of `calculate_anomaly_score` from `anomaly_detector.py`. -/
def calculate_anomaly_score (anomaly_rate : ℚ) : ℚ :=
  max 0 (100 - anomaly_rate)

/-! ## `src/api/base_client.py`

The network is modelled by an oracle `ℕ → Outcome` giving the outcome of
each attempt (indexed from 0): a decoded success, an HTTP status code, a
timeout, or a connection error.  `_make_request`'s `for attempt in
range(self.max_retries + 1)` loop becomes `make_request`, which returns the
typed result together with the number of attempts issued and the list of
backoff delays slept (in seconds), in order. -/

/-- Constant `RETRY_BACKOFF_FACTOR` from `config.py`. -/
def RETRY_BACKOFF_FACTOR : ℚ := 2

/-- Constant `MAX_RETRIES` from `config.py`. -/
def MAX_RETRIES : ℕ := 3

/-- Embedding of `_calculate_backoff` from `base_client.py` (generalised over the
backoff factor; the source reads the constant `RETRY_BACKOFF_FACTOR`). -/
def calculate_backoff (backoff_factor : ℚ) (attempt : ℕ) : ℚ :=
  backoff_factor ^ attempt

/-- Outcome of a single HTTP attempt. -/
inductive Outcome where
  | ok
  | http (code : ℕ)
  | timeout
  | connError
  deriving DecidableEq

/-- Typed result of `_make_request`: `success` (parsed body returned),
`rateLimited` (`RateLimitError`, raised on 429 and re-raised uncaught),
`clientError` (`APIError` with the 4xx status attached, raised without
retry), `transportError` (the final `APIError` raised after the loop when
all attempts failed retryably). -/
inductive RequestResult where
  | success
  | rateLimited
  | clientError (code : ℕ)
  | transportError
  deriving DecidableEq

/-- What one loop iteration of `_make_request` does with an outcome:
`some r` terminates the call with result `r`; `none` falls through to the
backoff/retry path.  429 is turned into `RateLimitError` before
`raise_for_status` runs; `raise_for_status` raises `HTTPError` for 4xx/5xx,
of which 4xx is converted to an immediate `APIError` and 5xx recorded and
retried; statuses below 400 do not raise and the body is returned; timeouts
and connection errors are recorded and retried. -/
def attemptResult (o : Outcome) : Option RequestResult :=
  match o with
  | Outcome.ok => some RequestResult.success
  | Outcome.timeout => none
  | Outcome.connError => none
  | Outcome.http c =>
    if c = 429 then some RequestResult.rateLimited
    else if 400 ≤ c ∧ c < 500 then some (RequestResult.clientError c)
    else if 500 ≤ c then none
    else some RequestResult.success

/-- Whether an outcome is a retryable failure (timeout, connection error,
or 5xx status). -/
def isRetryableOutcome (o : Outcome) : Bool :=
  match o with
  | Outcome.ok => false
  | Outcome.timeout => true
  | Outcome.connError => true
  | Outcome.http c => decide (500 ≤ c)

/-- Trace of one `_make_request` call: its typed result, how many attempts
were issued, and the backoff delays slept between attempts, in order. -/
structure RunTrace where
  result : RequestResult
  attempts : ℕ
  sleeps : List ℚ
  deriving DecidableEq

/-- The retry loop of `_make_request`, from attempt number `attempt` with
`remaining` further attempts allowed after the current one; sleeps
`backoff_factor ^ attempt` before each retry (only when another attempt
remains), exactly as the source's `if attempt < self.max_retries` guard. -/
def makeRequestLoop (backoff_factor : ℚ) (oc : ℕ → Outcome) (attempt : ℕ) :
    ℕ → RunTrace
  | 0 =>
    match attemptResult (oc attempt) with
    | some r => { result := r, attempts := attempt + 1, sleeps := [] }
    | none =>
      { result := RequestResult.transportError, attempts := attempt + 1
        sleeps := [] }
  | remaining + 1 =>
    match attemptResult (oc attempt) with
    | some r => { result := r, attempts := attempt + 1, sleeps := [] }
    | none =>
      let rest := makeRequestLoop backoff_factor oc (attempt + 1) remaining
      { result := rest.result, attempts := rest.attempts
        sleeps := calculate_backoff backoff_factor attempt :: rest.sleeps }

/-- Embedding of `_make_request` from `base_client.py`: up to `max_retries + 1`
attempts. -/
def make_request (backoff_factor : ℚ) (max_retries : ℕ)
    (oc : ℕ → Outcome) : RunTrace :=
  makeRequestLoop backoff_factor oc 0 max_retries

/-! ## Specification-side definitions

These definitions transcribe the *spec's* wording (they are compared with
the source-derived definitions above in the refinement theorems below). -/

/-- The range-check decision order exactly as the specification words it:
first match among `value < min` (critical), `value > max` (critical),
`value < warn_min` (warning), `value > warn_max` (warning), else ok. -/
def checkRangeSpecSeverity (value : ℚ) (t : RangeThresholds) : RangeSeverity :=
  if value < t.min then RangeSeverity.CRITICAL
  else if t.max < value then RangeSeverity.CRITICAL
  else if value < t.warn_min then RangeSeverity.WARNING
  else if t.warn_max < value then RangeSeverity.WARNING
  else RangeSeverity.OK

/-- Arithmetic mean of the stations' overall scores (the spec's "the overall
value is the arithmetic mean across inputs"). -/
def meanOverall (scores : List QualityScore) : ℚ :=
  (scores.map (fun s => s.overall)).sum / (scores.length : ℚ)

/-- Component-wise arithmetic mean of the stations' component scores. -/
def meanComponents (scores : List QualityScore) : QualityComponents :=
  { schema_validity :=
      (scores.map (fun s => s.components.schema_validity)).sum / (scores.length : ℚ)
    completeness :=
      (scores.map (fun s => s.components.completeness)).sum / (scores.length : ℚ)
    range_validity :=
      (scores.map (fun s => s.components.range_validity)).sum / (scores.length : ℚ)
    anomaly_score :=
      (scores.map (fun s => s.components.anomaly_score)).sum / (scores.length : ℚ) }

/-- Number of stations graded D or F (the spec's "inputs graded D or F"). -/
def poorCount (scores : List QualityScore) : ℕ :=
  (scores.map (fun s => s.grade)).count "D" + (scores.map (fun s => s.grade)).count "F"


/-! ## Theorems -/

/-- C1: with default weights, `calculate_quality_score(True,100,100,0)` has
overall 100 and grade A; `calculate_quality_score(False,0,0,100)` has
overall 0 and grade F; and flipping only `schema_valid` from True to False
with the other inputs fixed at (100,100,0) lowers the overall by exactly
`weight(schema_validity) × 100 = 20` points. -/
theorem C1_quality_score_scenarios :
  (calculate_quality_score true 100 100 0 none).overall = 100 ∧
  (calculate_quality_score true 100 100 0 none).grade = "A" ∧
  (calculate_quality_score false 0 0 100 none).overall = 0 ∧
  (calculate_quality_score false 0 0 100 none).grade = "F" ∧
  (calculate_quality_score true 100 100 0 none).overall -
      (calculate_quality_score false 100 100 0 none).overall =
    QUALITY_WEIGHTS.schema_validity * 100 ∧
  QUALITY_WEIGHTS.schema_validity * 100 = 20 := by
  refine ⟨?_, ?_, ?_, ?_, ?_, by norm_num [QUALITY_WEIGHTS]⟩ <;>
    norm_num [calculate_quality_score, QUALITY_WEIGHTS, round1, score_to_grade,
      min_def, max_def]

lemma completeness_field_bounds (p : ℕ) (E : ℤ) :
    0 ≤ (if 0 < E then min 100 ((p : ℚ) / (E : ℚ) * 100) else 0) ∧
    (if 0 < E then min 100 ((p : ℚ) / (E : ℚ) * 100) else 0) ≤ 100 := by
  split_ifs with h
  · have hE : (0 : ℚ) < (E : ℚ) := by exact_mod_cast h
    constructor
    · exact le_min (by norm_num)
        (mul_nonneg (div_nonneg (Nat.cast_nonneg p) (le_of_lt hE)) (by norm_num))
    · exact min_le_left _ _
  · norm_num

/-- C2 (amended): `completeness_percent` and the four `QualityComponents`
fields always lie in `[0,100]`; the anomaly rate is always ≥ 0 and lies
≤ 100 whenever the anomaly count does not exceed `total_observations` —
but `calculate_anomaly_rate` itself is *not* clamped above (see the
counterexample). -/
theorem C2_bounds :
  (∀ (timestamps : List ℚ) (expected_interval : ℚ) (s e : Option ℚ) (m : ℚ),
     0 < expected_interval →
     0 ≤ (analyze_completeness timestamps expected_interval s e m).completeness_percent ∧
     (analyze_completeness timestamps expected_interval s e m).completeness_percent ≤ 100) ∧
  (∀ (sv : Bool) (cp rv ar : ℚ),
     (0 ≤ (calculate_quality_score sv cp rv ar none).components.schema_validity ∧
       (calculate_quality_score sv cp rv ar none).components.schema_validity ≤ 100) ∧
     (0 ≤ (calculate_quality_score sv cp rv ar none).components.completeness ∧
       (calculate_quality_score sv cp rv ar none).components.completeness ≤ 100) ∧
     (0 ≤ (calculate_quality_score sv cp rv ar none).components.range_validity ∧
       (calculate_quality_score sv cp rv ar none).components.range_validity ≤ 100) ∧
     (0 ≤ (calculate_quality_score sv cp rv ar none).components.anomaly_score ∧
       (calculate_quality_score sv cp rv ar none).components.anomaly_score ≤ 100)) ∧
  (∀ (anomalies : List Anomaly) (total_observations : ℕ),
     0 ≤ calculate_anomaly_rate anomalies total_observations ∧
     (anomalies.length ≤ total_observations →
       calculate_anomaly_rate anomalies total_observations ≤ 100)) := by
  refine ⟨?_, ?_, ?_⟩
  · intro ts i s e m hi
    by_cases h : ts = []
    · simp [analyze_completeness, h]
    · simp only [analyze_completeness, if_neg h]
      exact completeness_field_bounds _ _
  · intro sv cp rv ar
    have hb : ∀ x : ℚ, 0 ≤ min 100 (max 0 x) ∧ min 100 (max 0 x) ≤ 100 :=
      fun x => ⟨le_min (by norm_num) (le_max_left 0 x), min_le_left _ _⟩
    refine ⟨?_, ?_, ?_, ?_⟩ <;> simp only [calculate_quality_score]
    · cases sv <;> norm_num
    · exact hb cp
    · exact hb rv
    · exact hb (100 - ar)
  · intro anomalies total
    by_cases ht : total = 0
    · simp [calculate_anomaly_rate, ht]
    · have htp : (0 : ℚ) < (total : ℚ) := by
        exact_mod_cast Nat.pos_of_ne_zero ht
      constructor
      · simp only [calculate_anomaly_rate, if_neg ht]
        exact mul_nonneg (div_nonneg (Nat.cast_nonneg _) (le_of_lt htp)) (by norm_num)
      · intro hlen
        simp only [calculate_anomaly_rate, if_neg ht]
        have hq : ((anomalies.length : ℚ) / (total : ℚ)) ≤ 1 :=
          (div_le_one htp).mpr (by exact_mod_cast hlen)
        calc ((anomalies.length : ℚ) / (total : ℚ)) * 100
            ≤ 1 * 100 := mul_le_mul_of_nonneg_right hq (by norm_num)
          _ = 100 := by norm_num

/-- C2 counterexample: the anomaly rate is not clamped to 100 — two
anomalies (e.g. the same point flagged by two methods) over one observation
give a rate of 200. -/
theorem C2_anomaly_rate_counterexample :
  calculate_anomaly_rate
      [Anomaly.mk 0 0 AnomalyMethod.ZSCORE AnomalySeverity.LOW "a" 0,
       Anomaly.mk 0 0 AnomalyMethod.IQR AnomalySeverity.LOW "b" 0] 1 = 200 ∧
  ¬ calculate_anomaly_rate
      [Anomaly.mk 0 0 AnomalyMethod.ZSCORE AnomalySeverity.LOW "a" 0,
       Anomaly.mk 0 0 AnomalyMethod.IQR AnomalySeverity.LOW "b" 0] 1 ≤ 100 := by
  norm_num [calculate_anomaly_rate]

/-- Witness for C2: the bounds evaluated at concrete inputs. -/
theorem C2_bounds_witness :
  0 ≤ (analyze_completeness [0, 2] 1 none none 90).completeness_percent ∧
  (analyze_completeness [0, 2] 1 none none 90).completeness_percent ≤ 100 ∧
  calculate_anomaly_rate [] 5 ≤ 100 :=
  ⟨(C2_bounds.1 [0, 2] 1 none none 90 (by norm_num)).1,
   (C2_bounds.1 [0, 2] 1 none none 90 (by norm_num)).2,
   (C2_bounds.2.2 [] 5).2 (by simp)⟩

lemma filterMap_range_pairs {α β : Type} (d : α) (f : α → α → Option β) :
    ∀ l : List α,
      (List.range (l.length - 1)).filterMap
        (fun i => f (l.getD i d) (l.getD (i + 1) d)) =
      (l.zip l.tail).filterMap (fun p => f p.1 p.2)
  | [] => by simp
  | [a] => by simp
  | a :: b :: t => by
    have ih := filterMap_range_pairs d f (b :: t)
    have h1 : (a :: b :: t).length - 1 = ((b :: t).length - 1) + 1 := by simp
    rw [h1, List.range_succ_eq_map, List.filterMap_cons, List.filterMap_map]
    simp only [Function.comp_def, List.getD_cons_succ, List.getD_cons_zero] at *
    rw [ih]
    simp [List.filterMap_cons]

lemma findGaps_eq_gapsSpecOfPairs (l : List ℚ) (expected_interval : ℚ)
    (hi : 0 < expected_interval) :
    findGaps l expected_interval = gapsSpecOfPairs l expected_interval := by
  have base := filterMap_range_pairs (0 : ℚ)
    (fun a b =>
      if expected_interval * (3/2) < b - a then
        some (Gap.mk a b (b - a) (pyInt ((b - a) / expected_interval) - 1))
      else none) l
  have h2 : findGaps l expected_interval =
      (l.zip l.tail).filterMap (fun p =>
        if expected_interval * (3/2) < p.2 - p.1 then
          some (Gap.mk p.1 p.2 (p.2 - p.1)
            (pyInt ((p.2 - p.1) / expected_interval) - 1))
        else none) := base
  rw [h2, gapsSpecOfPairs]
  congr 1
  funext p
  rw [mul_comm expected_interval (3/2)]
  split_ifs with hgt
  · have hd : (0 : ℚ) < p.2 - p.1 := lt_trans (by positivity) hgt
    have hq : (0 : ℚ) ≤ (p.2 - p.1) / expected_interval :=
      le_of_lt (div_pos hd hi)
    simp [pyInt, hq]
  · rfl

lemma analyze_longest_gap_eq (ts : List ℚ) (i : ℚ) (s e : Option ℚ) (m : ℚ) :
    (analyze_completeness ts i s e m).longest_gap =
      longestGap ((analyze_completeness ts i s e m).gaps) := by
  by_cases h : ts = [] <;> simp [analyze_completeness, h, longestGap]

/-- C3: for every series and positive expected interval, the gap list of
`analyze_completeness` is exactly the spec's rule over consecutive sorted
pairs (gap iff delta > 1.5 × interval, `missing_count = ⌊delta/interval⌋ -
1`); and the hourly scenario `[0,1,2,6,7,8,9]` yields exactly one gap, with
`missing_count = 3`, equal to `longest_gap`. -/
theorem C3_gap_rule :
  (∀ (timestamps : List ℚ) (expected_interval : ℚ) (s e : Option ℚ) (m : ℚ),
     0 < expected_interval →
     (analyze_completeness timestamps expected_interval s e m).gaps =
       gapsSpecOfPairs (timestamps.insertionSort (· ≤ ·)) expected_interval) ∧
  (analyze_completeness [0, 1, 2, 6, 7, 8, 9] 1 none none 90).gaps =
    [{ start := 2, «end» := 6, duration := 4, missing_count := 3 }] ∧
  (analyze_completeness [0, 1, 2, 6, 7, 8, 9] 1 none none 90).longest_gap =
    some { start := 2, «end» := 6, duration := 4, missing_count := 3 } := by
  have general : ∀ (timestamps : List ℚ) (expected_interval : ℚ)
      (s e : Option ℚ) (m : ℚ), 0 < expected_interval →
      (analyze_completeness timestamps expected_interval s e m).gaps =
        gapsSpecOfPairs (timestamps.insertionSort (· ≤ ·)) expected_interval := by
    intro ts interval s e m hi
    by_cases h : ts = []
    · subst h
      simp [analyze_completeness, gapsSpecOfPairs, List.insertionSort]
    · simp only [analyze_completeness, if_neg h]
      exact findGaps_eq_gapsSpecOfPairs _ _ hi
  have scen := general [0, 1, 2, 6, 7, 8, 9] 1 none none 90 (by norm_num)
  have hgaps : (analyze_completeness [0, 1, 2, 6, 7, 8, 9] 1 none none 90).gaps =
      [{ start := 2, «end» := 6, duration := 4, missing_count := 3 }] := by
    rw [scen]
    norm_num [gapsSpecOfPairs, List.insertionSort, List.orderedInsert,
      List.filterMap_cons]
  refine ⟨general, hgaps, ?_⟩
  rw [analyze_longest_gap_eq, hgaps]
  simp [longestGap]

/-- Witness for C3: the pairwise gap rule applied to the series `[0, 3]`
with interval 1. -/
theorem C3_gap_rule_witness :
  (analyze_completeness [0, 3] 1 none none 90).gaps =
    gapsSpecOfPairs (([0, 3] : List ℚ).insertionSort (· ≤ ·)) 1 :=
  C3_gap_rule.1 [0, 3] 1 none none 90 (by norm_num)

lemma npPercentile_example_q1 : npPercentile [1, 2, 3, 4, 100] 25 = 2 := by
  norm_num [npPercentile, List.insertionSort, List.orderedInsert, List.getD,
    show ((1 : ℤ).toNat) = 1 from rfl]

lemma npPercentile_example_q3 : npPercentile [1, 2, 3, 4, 100] 75 = 4 := by
  norm_num [npPercentile, List.insertionSort, List.orderedInsert, List.getD,
    show ((3 : ℤ).toNat) = 3 from rfl]

/-- C4 (amended): with at least 4 points, a value is flagged by the IQR
detector exactly when it lies strictly outside `[Q1 - m·IQR, Q3 + m·IQR]`;
each flagged anomaly's deviation is the distance of the value from the
nearest *quartile* (Q1 for low outliers, Q3 for high ones) divided by IQR
(0 if IQR = 0), and severity is high when deviation > 3, medium when > 2,
else low. -/
theorem C4_iqr_rule :
  ∀ (values timestamps : List ℚ) (multiplier : ℚ),
    4 ≤ values.length →
    (∀ a ∈ detect_iqr_anomalies values timestamps multiplier,
       a.method = AnomalyMethod.IQR ∧
       (a.value < npPercentile values 25 -
            multiplier * (npPercentile values 75 - npPercentile values 25) ∨
        npPercentile values 75 +
            multiplier * (npPercentile values 75 - npPercentile values 25) <
          a.value) ∧
       a.deviation =
         (if a.value < npPercentile values 25 -
              multiplier * (npPercentile values 75 - npPercentile values 25) then
            if 0 < npPercentile values 75 - npPercentile values 25 then
              (npPercentile values 25 - a.value) /
                (npPercentile values 75 - npPercentile values 25)
            else 0
          else
            if 0 < npPercentile values 75 - npPercentile values 25 then
              (a.value - npPercentile values 75) /
                (npPercentile values 75 - npPercentile values 25)
            else 0) ∧
       a.severity =
         (if 3 < a.deviation then AnomalySeverity.HIGH
          else if 2 < a.deviation then AnomalySeverity.MEDIUM
          else AnomalySeverity.LOW)) ∧
    (∀ i, i < values.length →
       (values.getD i 0 < npPercentile values 25 -
            multiplier * (npPercentile values 75 - npPercentile values 25) ∨
        npPercentile values 75 +
            multiplier * (npPercentile values 75 - npPercentile values 25) <
          values.getD i 0) →
       ∃ a ∈ detect_iqr_anomalies values timestamps multiplier,
         a.timestamp = timestamps.getD i 0 ∧ a.value = values.getD i 0) := by
  intro values timestamps multiplier h4
  have hnot : ¬ values.length < 4 := not_lt.mpr h4
  constructor
  · intro a ha
    simp only [detect_iqr_anomalies, if_neg hnot, List.mem_filterMap,
      List.mem_range] at ha
    obtain ⟨i, hmem, hf⟩ := ha
    by_cases h1 : values.getD i 0 < npPercentile values 25 -
        multiplier * (npPercentile values 75 - npPercentile values 25)
    · rw [if_pos h1] at hf
      obtain rfl := Option.some.inj hf
      refine ⟨rfl, Or.inl h1, ?_, ?_⟩
      · simp only [if_pos h1]
      · simp only [iqr_deviation_to_severity]
    · rw [if_neg h1] at hf
      by_cases h2 : npPercentile values 75 +
          multiplier * (npPercentile values 75 - npPercentile values 25) <
            values.getD i 0
      · rw [if_pos h2] at hf
        obtain rfl := Option.some.inj hf
        refine ⟨rfl, Or.inr h2, ?_, ?_⟩
        · simp only [if_neg h1]
        · simp only [iqr_deviation_to_severity]
      · rw [if_neg h2] at hf
        exact absurd hf (by simp)
  · intro i hi hout
    simp only [detect_iqr_anomalies, if_neg hnot]
    by_cases h1 : values.getD i 0 < npPercentile values 25 -
        multiplier * (npPercentile values 75 - npPercentile values 25)
    · refine ⟨{ timestamp := timestamps.getD i 0, value := values.getD i 0
                method := AnomalyMethod.IQR
                severity := iqr_deviation_to_severity
                  (if 0 < npPercentile values 75 - npPercentile values 25 then
                    (npPercentile values 25 - values.getD i 0) /
                      (npPercentile values 75 - npPercentile values 25)
                  else 0)
                message := "Value " ++ toString (values.getD i 0) ++
                  " is below IQR lower bound " ++
                  fmt2 (npPercentile values 25 -
                    multiplier * (npPercentile values 75 - npPercentile values 25))
                deviation :=
                  if 0 < npPercentile values 75 - npPercentile values 25 then
                    (npPercentile values 25 - values.getD i 0) /
                      (npPercentile values 75 - npPercentile values 25)
                  else 0 },
        List.mem_filterMap.mpr ⟨i, List.mem_range.mpr hi, ?_⟩, rfl, rfl⟩
      rw [if_pos h1]
    · have h2 : npPercentile values 75 +
          multiplier * (npPercentile values 75 - npPercentile values 25) <
            values.getD i 0 := hout.resolve_left h1
      refine ⟨{ timestamp := timestamps.getD i 0, value := values.getD i 0
                method := AnomalyMethod.IQR
                severity := iqr_deviation_to_severity
                  (if 0 < npPercentile values 75 - npPercentile values 25 then
                    (values.getD i 0 - npPercentile values 75) /
                      (npPercentile values 75 - npPercentile values 25)
                  else 0)
                message := "Value " ++ toString (values.getD i 0) ++
                  " is above IQR upper bound " ++
                  fmt2 (npPercentile values 75 +
                    multiplier * (npPercentile values 75 - npPercentile values 25))
                deviation :=
                  if 0 < npPercentile values 75 - npPercentile values 25 then
                    (values.getD i 0 - npPercentile values 75) /
                      (npPercentile values 75 - npPercentile values 25)
                  else 0 },
        List.mem_filterMap.mpr ⟨i, List.mem_range.mpr hi, ?_⟩, rfl, rfl⟩
      rw [if_neg h1, if_pos h2]

/-- C4 counterexample: for `[1,2,3,4,100]` (Q1 = 2, Q3 = 4, IQR = 2,
upper bound 7) the single flagged anomaly has deviation 48 =
(100 - Q3)/IQR, not the claimed distance from the nearest bound divided by
IQR, which is (100 - 7)/2 = 93/2. -/
theorem C4_deviation_counterexample :
  (detect_iqr_anomalies [1, 2, 3, 4, 100] [0, 1, 2, 3, 4] (3/2)).map
      (fun a => a.deviation) = [48] ∧
  (100 - (npPercentile [1, 2, 3, 4, 100] 75 +
      (3/2) * (npPercentile [1, 2, 3, 4, 100] 75 -
        npPercentile [1, 2, 3, 4, 100] 25))) /
    (npPercentile [1, 2, 3, 4, 100] 75 - npPercentile [1, 2, 3, 4, 100] 25) =
      93/2 ∧
  (48 : ℚ) ≠ 93/2 := by
  refine ⟨?_, ?_, by norm_num⟩
  · norm_num [detect_iqr_anomalies, npPercentile_example_q1,
      npPercentile_example_q3, List.filterMap_cons, List.getD,
      iqr_deviation_to_severity, show List.range 5 = [0, 1, 2, 3, 4] from rfl]
  · norm_num [npPercentile_example_q1, npPercentile_example_q3]

/-- Witness for C4: the rule applied to the concrete series, producing the
outlier 100 at index 4. -/
theorem C4_iqr_rule_witness :
  ∃ a ∈ detect_iqr_anomalies [1, 2, 3, 4, 100] [0, 1, 2, 3, 4] (3/2),
    a.timestamp = ([0, 1, 2, 3, 4] : List ℚ).getD 4 0 ∧
    a.value = ([1, 2, 3, 4, 100] : List ℚ).getD 4 0 := by
  refine (C4_iqr_rule [1, 2, 3, 4, 100] [0, 1, 2, 3, 4] (3/2)
    (by norm_num)).2 4 (by norm_num) ?_
  right
  norm_num [npPercentile_example_q1, npPercentile_example_q3, List.getD]

instance : IsTotal Anomaly (fun a b => a.timestamp ≤ b.timestamp) :=
  ⟨fun a b => le_total a.timestamp b.timestamp⟩

instance : IsTrans Anomaly (fun a b => a.timestamp ≤ b.timestamp) :=
  ⟨fun _ _ _ hab hbc => le_trans hab hbc⟩

/-- C5: for every input and every method subset, `detect_all_anomalies` is
sorted by timestamp (non-decreasing) and is a permutation of the
concatenation of the selected detectors' outputs — nothing is deduplicated
across methods. -/
theorem C5_combined_sorted_no_dedup :
  ∀ (values timestamps : List ℚ) (parameter : String)
    (methods : Option (List AnomalyMethod)),
    List.Sorted (fun a b : Anomaly => a.timestamp ≤ b.timestamp)
      (detect_all_anomalies values timestamps parameter methods) ∧
    (detect_all_anomalies values timestamps parameter methods).Perm
      ((if AnomalyMethod.ZSCORE ∈ methods.getD
            [AnomalyMethod.ZSCORE, AnomalyMethod.IQR, AnomalyMethod.RATE_OF_CHANGE] then
          detect_zscore_anomalies values timestamps ZSCORE_THRESHOLD none
        else []) ++
       (if AnomalyMethod.IQR ∈ methods.getD
            [AnomalyMethod.ZSCORE, AnomalyMethod.IQR, AnomalyMethod.RATE_OF_CHANGE] then
          detect_iqr_anomalies values timestamps IQR_MULTIPLIER
        else []) ++
       (if AnomalyMethod.RATE_OF_CHANGE ∈ methods.getD
            [AnomalyMethod.ZSCORE, AnomalyMethod.IQR, AnomalyMethod.RATE_OF_CHANGE] then
          detect_rate_of_change_anomalies values timestamps parameter none
        else [])) := by
  intro values timestamps parameter methods
  constructor
  · exact List.sorted_insertionSort _ _
  · exact List.perm_insertionSort _ _

/-- C6 counterexample: temperature has `max = 55` but `warn_max = 40`, so
the value 55 — exactly equal to `max` — is classified WARNING, not OK. -/
theorem C6_boundary_counterexample :
  (check_range 55 "temperature" none).severity = RangeSeverity.WARNING ∧
  RangeSeverity.WARNING ≠ RangeSeverity.OK ∧
  (RANGE_THRESHOLDS "temperature").map (fun t => t.max) = some 55 := by
  refine ⟨by norm_num [check_range, RANGE_THRESHOLDS, Option.orElse], by decide,
    by norm_num [RANGE_THRESHOLDS]⟩

/-- C6 (amended): for every registered parameter, `check_range` classifies
by first match in the order `value < min` → critical, `value > max` →
critical, `value < warn_min` → warning, `value > warn_max` → warning, else
ok; and a value exactly equal to `max` is never classified critical (it is
ok only when `warn_max` coincides with `max`, as for humidity). -/
theorem C6_first_match :
  ∀ (parameter : String) (t : RangeThresholds),
    RANGE_THRESHOLDS parameter = some t →
    (∀ v : ℚ, (check_range v parameter none).severity = checkRangeSpecSeverity v t) ∧
    (check_range t.max parameter none).severity ≠ RangeSeverity.CRITICAL := by
  intro parameter t h
  have hminmax : t.min ≤ t.max := by
    unfold RANGE_THRESHOLDS at h
    split_ifs at h <;> simp only [Option.some.injEq] at h <;> (subst h; norm_num)
  have hspec : ∀ v : ℚ,
      (check_range v parameter none).severity = checkRangeSpecSeverity v t := by
    intro v
    simp only [check_range, Option.orElse, h, checkRangeSpecSeverity]
    split_ifs <;> rfl
  refine ⟨hspec, ?_⟩
  rw [hspec t.max]
  unfold checkRangeSpecSeverity
  rw [if_neg (not_lt.mpr hminmax), if_neg (lt_irrefl t.max)]
  split_ifs <;> simp

/-- Witness for C6: the humidity boundary — 100 equals `max` and is
classified OK, hence not critical. -/
theorem C6_first_match_witness :
  (check_range 100 "humidity" none).severity ≠ RangeSeverity.CRITICAL :=
  (C6_first_match "humidity" (RangeThresholds.mk 0 100 0 100)
    (by decide)).2

/-- C7: the range validity score is the severity-weighted sum (ok = 1,
warning = 1/2, critical = 0) divided by the result count, times 100; the
empty list scores exactly 100; and the temperature scenario
`[5, 10, 15, 20, 45]` scores exactly 90 (4 ok, 1 warning). -/
theorem C7_range_validity_scoring :
  (∀ results : List RangeCheckResult, results ≠ [] →
    calculate_range_validity_score results =
      (results.map (fun r => rangeSeverityWeight r.severity)).sum /
        (results.length : ℚ) * 100) ∧
  calculate_range_validity_score [] = 100 ∧
  calculate_range_validity_score
      (validate_observations [5, 10, 15, 20, 45] "temperature") = 90 := by
  refine ⟨fun results h => ?_, by norm_num [calculate_range_validity_score], ?_⟩
  · simp [calculate_range_validity_score, h]
  · norm_num [calculate_range_validity_score, validate_observations, check_range,
      RANGE_THRESHOLDS, rangeSeverityWeight, Option.orElse]
    simp

/-- Witness for C7: the weighted-average clause evaluated at the concrete
singleton `[check_range 45 "temperature" none]`. -/
theorem C7_range_validity_scoring_witness :
  calculate_range_validity_score [check_range 45 "temperature" none] =
    ([check_range 45 "temperature" none].map
        (fun r => rangeSeverityWeight r.severity)).sum /
      (([check_range 45 "temperature" none] : List RangeCheckResult).length : ℚ) * 100 :=
  C7_range_validity_scoring.1 [check_range 45 "temperature" none] (by simp)

/-- C10: a custom rate-of-change threshold of `0.0` is falsy in the
source's `custom_threshold or …`, so it behaves exactly like passing no
custom threshold: the per-parameter threshold (or infinity for an unknown
parameter, flagging nothing) is used — a zero threshold never causes every
change to be flagged. -/
theorem C10_zero_custom_threshold :
  ∀ (values timestamps : List ℚ) (parameter : String),
    detect_rate_of_change_anomalies values timestamps parameter (some 0) =
      detect_rate_of_change_anomalies values timestamps parameter none ∧
    (RATE_OF_CHANGE_THRESHOLD parameter = none →
      detect_rate_of_change_anomalies values timestamps parameter (some 0) = []) := by
  intro values timestamps parameter
  constructor
  · simp [detect_rate_of_change_anomalies]
  · intro h
    simp [detect_rate_of_change_anomalies, h]

/-- Witness for C10: for the unregistered parameter "pressure", a zero
custom threshold flags nothing. -/
theorem C10_zero_custom_threshold_witness :
  detect_rate_of_change_anomalies [0, 100] [0, 1] "pressure" (some 0) = [] :=
  (C10_zero_custom_threshold [0, 100] [0, 1] "pressure").2 (by decide)

/-- C8 (amended): `aggregate_station_scores []` returns overall 0, grade F
and a non-empty "no data" recommendation; for a non-empty list the
components are the arithmetic means, the stored overall is the mean rounded
to one decimal, the grade is recomputed from the unrounded mean, and the
recommendation reports the count of D/F-graded inputs out of the total only
when the averaged overall is below 90 — when the average is at least 90 an
"excellent" message is emitted even if some inputs are poor, and the
"acceptable"/"review" messages are used only when no input is poor. -/
theorem C8_aggregate :
  ((aggregate_station_scores []).overall = 0 ∧
   (aggregate_station_scores []).grade = "F" ∧
   (aggregate_station_scores []).recommendation =
     "No data available for quality assessment" ∧
   (aggregate_station_scores []).recommendation ≠ "") ∧
  (∀ scores : List QualityScore, scores ≠ [] →
    (aggregate_station_scores scores).components = meanComponents scores ∧
    (aggregate_station_scores scores).overall = round1 (meanOverall scores) ∧
    (aggregate_station_scores scores).grade = score_to_grade (meanOverall scores) ∧
    (90 ≤ meanOverall scores →
      (aggregate_station_scores scores).recommendation =
        "System health excellent across " ++ toString scores.length ++
          " stations") ∧
    (meanOverall scores < 90 → 0 < poorCount scores →
      (aggregate_station_scores scores).recommendation =
        toString (poorCount scores) ++ " of " ++ toString scores.length ++
          " stations have degraded data quality - investigate sensor issues") ∧
    (meanOverall scores < 90 → poorCount scores = 0 → 70 ≤ meanOverall scores →
      (aggregate_station_scores scores).recommendation =
        "System health acceptable - minor issues at some stations") ∧
    (meanOverall scores < 90 → poorCount scores = 0 → meanOverall scores < 70 →
      (aggregate_station_scores scores).recommendation =
        "System-wide data quality concerns - comprehensive review needed")) := by
  constructor
  · refine ⟨by simp [aggregate_station_scores], by simp [aggregate_station_scores],
      by simp [aggregate_station_scores], by simp [aggregate_station_scores]⟩
  · intro scores h
    simp only [aggregate_station_scores, if_neg h, meanComponents, meanOverall,
      poorCount, generate_system_recommendation]
    refine ⟨trivial, trivial, trivial, ?_, ?_, ?_, ?_⟩
    · intro h90
      rw [if_pos h90]
      simp [List.length_map]
    · intro h90 hpoor
      rw [if_neg (not_le.mpr h90), if_pos hpoor]
      simp [List.length_map]
    · intro h90 hpoor h70
      rw [if_neg (not_le.mpr h90), if_neg (by omega), if_pos h70]
    · intro h90 hpoor h70
      rw [if_neg (not_le.mpr h90), if_neg (by omega),
        if_neg (not_le.mpr h70)]

/-- C8 counterexample: four perfect stations (overall 100, grade A) and one
station with overall 50 and grade F average to 90, so the recommendation is
the "excellent" message even though one input is graded F — the D/F count
is not reported, falsifying the claim as stated. -/
theorem C8_recommendation_counterexample :
  ((List.replicate 4 (calculate_quality_score true 100 100 0 none) ++
      [calculate_quality_score false 75 60 50 none]).map
        (fun s => s.grade)).count "F" = 1 ∧
  (aggregate_station_scores
      (List.replicate 4 (calculate_quality_score true 100 100 0 none) ++
        [calculate_quality_score false 75 60 50 none])).recommendation =
    "System health excellent across 5 stations" ∧
  ("System health excellent across 5 stations" : String) ≠
    "1 of 5 stations have degraded data quality - investigate sensor issues" := by
  refine ⟨?_, ?_, by decide⟩
  · norm_num [calculate_quality_score, QUALITY_WEIGHTS, score_to_grade, round1,
      min_def, max_def, List.replicate]
    decide
  · norm_num [aggregate_station_scores, calculate_quality_score, QUALITY_WEIGHTS,
      generate_system_recommendation, round1, score_to_grade, min_def, max_def,
      List.replicate, List.count, List.countP]
    rfl

/-- Witness for C8: aggregating a single F-graded station (overall 0)
reports "1 of 1" degraded stations. -/
theorem C8_aggregate_witness :
  (aggregate_station_scores
      [calculate_quality_score false 0 0 100 none]).recommendation =
    "1 of 1 stations have degraded data quality - investigate sensor issues" := by
  have h := (C8_aggregate.2 [calculate_quality_score false 0 0 100 none]
    (by simp)).2.2.2.2.1
  have e1 : meanOverall [calculate_quality_score false 0 0 100 none] < 90 := by
    norm_num [meanOverall, calculate_quality_score, QUALITY_WEIGHTS, round1,
      min_def, max_def]
  have e2 : 0 < poorCount [calculate_quality_score false 0 0 100 none] := by
    norm_num [poorCount, calculate_quality_score, QUALITY_WEIGHTS, score_to_grade,
      round1, min_def, max_def]
  rw [h e1 e2]
  have e3 : poorCount [calculate_quality_score false 0 0 100 none] = 1 := by
    norm_num [poorCount, calculate_quality_score, QUALITY_WEIGHTS, score_to_grade,
      round1, min_def, max_def]
    decide
  rw [e3]
  rfl

lemma attemptResult_ne_transport (o : Outcome) (r : RequestResult)
    (h : attemptResult o = some r) : r ≠ RequestResult.transportError := by
  cases o with
  | ok =>
    simp only [attemptResult, Option.some.injEq] at h
    subst h; simp
  | http c =>
    simp only [attemptResult] at h
    split_ifs at h <;> simp only [Option.some.injEq] at h <;> (subst h; simp)
  | timeout => simp [attemptResult] at h
  | connError => simp [attemptResult] at h

lemma attemptResult_none_iff (o : Outcome) :
    attemptResult o = none ↔ isRetryableOutcome o = true := by
  cases o with
  | ok => simp [attemptResult, isRetryableOutcome]
  | http c =>
    simp only [attemptResult, isRetryableOutcome]
    split_ifs with h1 h2 h3 <;> simp_all
  | timeout => simp [attemptResult, isRetryableOutcome]
  | connError => simp [attemptResult, isRetryableOutcome]

lemma loop_attempts_le (β : ℚ) (oc : ℕ → Outcome) :
    ∀ (rem a : ℕ), (makeRequestLoop β oc a rem).attempts ≤ a + rem + 1
  | 0, a => by
    simp only [makeRequestLoop]
    cases h : attemptResult (oc a) <;> simp
  | rem + 1, a => by
    have ih := loop_attempts_le β oc rem (a + 1)
    simp only [makeRequestLoop]
    cases h : attemptResult (oc a) with
    | none =>
      show (makeRequestLoop β oc (a + 1) rem).attempts ≤ a + (rem + 1) + 1
      omega
    | some r =>
      show a + 1 ≤ a + (rem + 1) + 1
      omega

lemma loop_early (β : ℚ) (oc : ℕ → Outcome) (r : RequestResult) :
    ∀ (i rem a : ℕ), i ≤ rem →
      (∀ j, j < i → attemptResult (oc (a + j)) = none) →
      attemptResult (oc (a + i)) = some r →
      makeRequestLoop β oc a rem =
        { result := r, attempts := a + i + 1,
          sleeps := (List.range' a i).map (fun j => β ^ j) }
  | 0, rem, a => by
    intro _ _ hsome
    simp only [Nat.add_zero] at hsome
    cases rem <;> simp [makeRequestLoop, hsome]
  | i + 1, rem, a => by
    intro hle hall hsome
    have h0 : attemptResult (oc a) = none := by
      have := hall 0 (Nat.succ_pos i)
      simpa using this
    obtain ⟨rem', rfl⟩ : ∃ rem', rem = rem' + 1 :=
      ⟨rem - 1, by omega⟩
    have ih := loop_early β oc r i rem' (a + 1) (by omega)
      (fun j hj => by
        have := hall (j + 1) (by omega)
        simpa [Nat.add_assoc, Nat.add_comm 1 j] using this)
      (by
        have heq : a + 1 + i = a + (i + 1) := by omega
        rw [heq]
        exact hsome)
    simp only [makeRequestLoop, h0, ih, List.range'_succ, List.map_cons,
      calculate_backoff]
    have harith : a + 1 + i + 1 = a + (i + 1) + 1 := by omega
    rw [harith]

lemma loop_allfail (β : ℚ) (oc : ℕ → Outcome) :
    ∀ (rem a : ℕ), (∀ j, j ≤ rem → attemptResult (oc (a + j)) = none) →
      makeRequestLoop β oc a rem =
        { result := RequestResult.transportError, attempts := a + rem + 1,
          sleeps := (List.range' a rem).map (fun j => β ^ j) }
  | 0, a => by
    intro hall
    have h0 : attemptResult (oc a) = none := by simpa using hall 0 le_rfl
    simp [makeRequestLoop, h0]
  | rem + 1, a => by
    intro hall
    have h0 : attemptResult (oc a) = none := by simpa using hall 0 (by omega)
    have ih := loop_allfail β oc rem (a + 1) (fun j hj => by
      have := hall (j + 1) (by omega)
      simpa [Nat.add_assoc, Nat.add_comm 1 j] using this)
    simp only [makeRequestLoop, h0, ih, List.range'_succ, List.map_cons,
      calculate_backoff]
    have harith : a + 1 + rem + 1 = a + (rem + 1) + 1 := by omega
    rw [harith]

lemma loop_transport (β : ℚ) (oc : ℕ → Outcome) :
    ∀ (rem a : ℕ),
      (makeRequestLoop β oc a rem).result = RequestResult.transportError →
      ∀ j, j ≤ rem → attemptResult (oc (a + j)) = none
  | 0, a => by
    intro hres j hj
    interval_cases j
    simp only [makeRequestLoop] at hres
    cases h : attemptResult (oc a) with
    | none => simpa using h
    | some r =>
      rw [h] at hres
      exact absurd hres (attemptResult_ne_transport _ _ h)
  | rem + 1, a => by
    intro hres j hj
    simp only [makeRequestLoop] at hres
    cases h : attemptResult (oc a) with
    | some r =>
      rw [h] at hres
      exact absurd hres (attemptResult_ne_transport _ _ h)
    | none =>
      rw [h] at hres
      have ih := loop_transport β oc rem (a + 1) hres
      cases j with
      | zero => simpa using h
      | succ j =>
        have := ih j (by omega)
        simpa [Nat.add_assoc, Nat.add_comm 1 j] using this

/-- C9: the fetcher makes at most `max_retries + 1` attempts; it fails with
a client error immediately (no further attempts) on a 4xx status other than
429; it surfaces a distinguishable rate-limit result on 429 without
retrying; on timeout, connection error or 5xx it retries, sleeping
`backoff_factor ^ attempt` (zero-indexed) before each retry; and it yields
the transport-level error exactly when every one of the `max_retries + 1`
attempts failed retryably. -/
theorem C9_retry_policy :
  ∀ (backoff_factor : ℚ) (max_retries : ℕ) (oc : ℕ → Outcome),
    (make_request backoff_factor max_retries oc).attempts ≤ max_retries + 1 ∧
    ((make_request backoff_factor max_retries oc).result =
        RequestResult.transportError ↔
      ∀ j, j ≤ max_retries → isRetryableOutcome (oc j) = true) ∧
    ((∀ j, j ≤ max_retries → isRetryableOutcome (oc j) = true) →
      make_request backoff_factor max_retries oc =
        { result := RequestResult.transportError, attempts := max_retries + 1,
          sleeps := (List.range max_retries).map (fun j => backoff_factor ^ j) }) ∧
    (∀ i, i ≤ max_retries →
      (∀ j, j < i → isRetryableOutcome (oc j) = true) →
      (∀ c, oc i = Outcome.http c → 400 ≤ c → c < 500 → c ≠ 429 →
        make_request backoff_factor max_retries oc =
          { result := RequestResult.clientError c, attempts := i + 1,
            sleeps := (List.range i).map (fun j => backoff_factor ^ j) }) ∧
      (oc i = Outcome.http 429 →
        make_request backoff_factor max_retries oc =
          { result := RequestResult.rateLimited, attempts := i + 1,
            sleeps := (List.range i).map (fun j => backoff_factor ^ j) }) ∧
      (oc i = Outcome.ok →
        make_request backoff_factor max_retries oc =
          { result := RequestResult.success, attempts := i + 1,
            sleeps := (List.range i).map (fun j => backoff_factor ^ j) })) := by
  intro β mr oc
  have hfail : ∀ (h : ∀ j, j ≤ mr → isRetryableOutcome (oc j) = true),
      make_request β mr oc =
        { result := RequestResult.transportError, attempts := mr + 1,
          sleeps := (List.range mr).map (fun j => β ^ j) } := by
    intro h
    have := loop_allfail β oc mr 0 (fun j hj => by
      rw [Nat.zero_add, attemptResult_none_iff]
      exact h j hj)
    rw [make_request, this, List.range_eq_range']
    norm_num
  have hearly : ∀ (i : ℕ), i ≤ mr →
      (∀ j, j < i → isRetryableOutcome (oc j) = true) →
      ∀ r : RequestResult, attemptResult (oc i) = some r →
      make_request β mr oc =
        { result := r, attempts := i + 1,
          sleeps := (List.range i).map (fun j => β ^ j) } := by
    intro i hi hall r hsome
    have := loop_early β oc r i mr 0 hi
      (fun j hj => by
        rw [Nat.zero_add, attemptResult_none_iff]
        exact hall j hj)
      (by rw [Nat.zero_add]; exact hsome)
    rw [make_request, this, List.range_eq_range']
    norm_num
  refine ⟨?_, ⟨?_, ?_⟩, hfail, ?_⟩
  · have := loop_attempts_le β oc mr 0
    simpa using this
  · intro hres j hj
    have := loop_transport β oc mr 0 hres j hj
    rw [Nat.zero_add, attemptResult_none_iff] at this
    exact this
  · intro h
    rw [hfail h]
  · intro i hi hall
    refine ⟨?_, ?_, ?_⟩
    · intro c hoc h400 h500 h429
      refine hearly i hi hall (RequestResult.clientError c) ?_
      rw [hoc]
      simp only [attemptResult, if_neg h429, if_pos (And.intro h400 h500)]
    · intro hoc
      refine hearly i hi hall RequestResult.rateLimited ?_
      rw [hoc]
      simp [attemptResult]
    · intro hoc
      refine hearly i hi hall RequestResult.success ?_
      rw [hoc]
      simp [attemptResult]

/-- Witness for C9: with the default backoff factor 2 and `max_retries = 3`,
a timeout followed by an HTTP 404 yields an immediate client error on the
second attempt, after exactly one backoff sleep of `2^0 = 1` second. -/
theorem C9_retry_policy_witness :
  make_request RETRY_BACKOFF_FACTOR MAX_RETRIES
      (fun i => [Outcome.timeout, Outcome.http 404].getD i Outcome.ok) =
    { result := RequestResult.clientError 404, attempts := 2,
      sleeps := [1] } := by
  have h := ((C9_retry_policy RETRY_BACKOFF_FACTOR MAX_RETRIES
      (fun i => [Outcome.timeout, Outcome.http 404].getD i Outcome.ok)).2.2.2
      1 (by norm_num [MAX_RETRIES])
      (by
        intro j hj
        interval_cases j
        decide)).1 404 rfl (by norm_num) (by norm_num) (by norm_num)
  rw [h]
  norm_num [RETRY_BACKOFF_FACTOR, List.range_succ, List.range_zero]
